import Mathlib

/-!
Verification of the dynamic-pricing webhook service (`src/main.py`).

The service is a single FastAPI module: an in-memory pricing store
(`pricing_db`), a pure price-adjustment function (`adjust_price`), a webhook
handler (`market_update_webhook`) with a validation chain, and read endpoints
(`get_pricing`, `get_all_pricing`, `health_check`).

Modelling choices:
* Python floats are modelled as rationals (`ℚ`); `round(x, 2)` is modelled as
  round-half-to-even on the value scaled by 100 (`round2`), matching Python's
  banker's rounding on the mathematical value.
* Timestamps (`datetime.datetime.now()`) are opaque; we model them as `ℕ`
  parameters supplied to each handler.  The `isoformat()` rendering of the
  response timestamp is not modelled beyond carrying the timestamp value.
* JSON request bodies are values of the inductive `Json`; a body that fails to
  parse is modelled as `none`.  `Json.obj` models the Python dict produced by
  `request.json()` (keys unique, as Python dict keys are).
* Python's dynamically-typed operations used by the handler (`not data`
  truthiness, `"product_id" in data` membership, `data.get(...)`,
  `pid in pricing_db`) are modelled by functions returning `Except Unit _`,
  where `.error ()` marks an operation that raises (TypeError /
  AttributeError); the handler's catch-all `except Exception` turns any such
  raise into a 500 response.
* Randomness (`get_market_data`) is modelled by passing the generated
  `MarketData` snapshot as an explicit argument to the handler.
-/

/-- JSON values, as parsed by `request.json()` into Python objects.
`obj` is a Python dict (association list with unique keys). -/
inductive Json where
  | null : Json
  | bool (b : Bool) : Json
  | num (q : ℚ) : Json
  | str (s : String) : Json
  | arr (xs : List Json) : Json
  | obj (kvs : List (String × Json)) : Json

/-- Python truthiness of a parsed JSON value (`not data` in the handler):
`None`, `False`, `0`, `""`, `[]`, `{}` are falsy, everything else truthy. -/
def truthy : Json → Bool
  | .null => false
  | .bool b => b
  | .num q => q ≠ 0
  | .str s => s ≠ ""
  | .arr xs => !xs.isEmpty
  | .obj kvs => !kvs.isEmpty

/-- List-of-chars prefix test (used to model Python's substring `in`). -/
def hasPrefixL : List Char → List Char → Bool
  | [], _ => true
  | _ :: _, [] => false
  | a :: as, b :: bs => a == b && hasPrefixL as bs

/-- List-of-chars infix test. -/
def hasInfixL (pat : List Char) : List Char → Bool
  | [] => hasPrefixL pat []
  | c :: rest => hasPrefixL pat (c :: rest) || hasInfixL pat rest

/-- Python substring membership `pat in hay` for strings. -/
def strContains (hay pat : String) : Bool := hasInfixL pat.data hay.data

/-- First-match lookup in a Python dict (association list). -/
def lookupKV (key : String) : List (String × Json) → Option Json
  | [] => none
  | (k, v) :: rest => if k == key then some v else lookupKV key rest

/-- `elem == "key"` in Python: only an equal string compares equal to a
string (numbers, booleans, null, containers never equal a string). -/
def eqStrPy (key : String) : Json → Bool
  | .str s => s == key
  | _ => false

/-- Python membership test `key in data` on a parsed JSON value:
dict → key lookup; list → element equality; string → substring;
number / boolean / null → TypeError (argument not iterable/container). -/
def memPy (key : String) : Json → Except Unit Bool
  | .obj kvs => .ok (lookupKV key kvs).isSome
  | .arr xs => .ok (xs.any (eqStrPy key))
  | .str s => .ok (strContains s key)
  | .num _ => .error ()
  | .bool _ => .error ()
  | .null => .error ()

/-- Python attribute call `data.get(key)`: only dicts have `.get`;
any other receiver raises AttributeError. -/
def getPy (key : String) : Json → Except Unit (Option Json)
  | .obj kvs => .ok (lookupKV key kvs)
  | _ => .error ()

/-- Market snapshot produced by `get_market_data()`:
`demand ∈ [0.5, 2.0)`, `competitor_price ∈ [80, 120)`,
`trend ∈ {"rising", "falling", "stable"}`. -/
structure MarketData where
  demand : ℚ
  competitor_price : ℚ
  trend : String
deriving DecidableEq

/-- Round-half-to-even to the nearest integer (Python's rounding mode). -/
def rhe (q : ℚ) : ℤ :=
  if q - ⌊q⌋ = 1 / 2 then (if Even ⌊q⌋ then ⌊q⌋ else ⌊q⌋ + 1) else round q

/-- Model of Python's `round(x, 2)`: round-half-to-even at two decimals. -/
def round2 (q : ℚ) : ℚ := (rhe (q * 100) : ℚ) / 100

/-- `adjust_price` from `src/main.py` (lines 40-53): scale by demand, apply
the trend multiplier, clamp into the competitor window, round to 2 dp. -/
def adjust_price (current_price : ℚ) (market_data : MarketData) : ℚ :=
  let p1 := current_price * market_data.demand
  let p2 :=
    if market_data.trend == "rising" then p1 * (11 / 10)
    else if market_data.trend == "falling" then p1 * (9 / 10)
    else p1
  let p3 := max (market_data.competitor_price * (9 / 10))
      (min p2 (market_data.competitor_price * (11 / 10)))
  round2 p3

/-- Modelled from the spec (§4.3 Price Adjustment Algorithm): the reference
algorithm written from the spec's step list, to be compared against the
implementation `adjust_price`.  `clamp` takes the lower bound with
precedence when the range is degenerate (`max lo (min p hi)`). -/
def clampSpec (p lo hi : ℚ) : ℚ := max lo (min p hi)

/-- Modelled from the spec (§4.3): steps 1-6 of the spec's algorithm. -/
def adjustSpec (current_price : ℚ) (snapshot : MarketData) : ℚ :=
  let p := current_price * snapshot.demand
  let p :=
    if snapshot.trend == "rising" then p * (11 / 10)
    else if snapshot.trend == "falling" then p * (9 / 10)
    else p
  let p := clampSpec p (snapshot.competitor_price * (9 / 10))
      (snapshot.competitor_price * (11 / 10))
  round2 p

/-- A record of the pricing store: `{"price": ..., "last_updated": ...}`. -/
structure PriceRec where
  price : ℚ
  last_updated : ℕ
deriving DecidableEq

/-- The in-memory pricing store: a Python dict keyed by product id.  Every
present key maps to exactly one record (the dict's key uniqueness). -/
def Store : Type := String → Option PriceRec

/-- Initial `pricing_db` (lines 26-29 of `src/main.py`), with startup
timestamp `t0`. -/
def pricing_db (t0 : ℕ) : Store := fun k =>
  if k = "product1" then some ⟨100, t0⟩
  else if k = "product2" then some ⟨50, t0⟩
  else none

/-- The two store writes of the webhook's success path:
`pricing_db[pid]["price"] = new_price; pricing_db[pid]["last_updated"] = now`. -/
def setPrice (db : Store) (k : String) (p : ℚ) (t : ℕ) : Store :=
  fun j => if j = k then some ⟨p, t⟩ else db j

/-- The keys currently present in the store. -/
def storeKeys (db : Store) : Set String := {k | (db k).isSome}

/-- The error taxonomy of the service (each `HTTPException` site and the
catch-all), identified by its raise site in `src/main.py`. -/
inductive ErrKind where
  | invalidContentType
  | malformedJSON
  | missingField
  | productNotFound
  | internalError
deriving DecidableEq

/-- The webhook's 200 response body (lines 90-96 of `src/main.py`). -/
structure Success where
  product_id : String
  old_price : ℚ
  new_price : ℚ
  market_data : MarketData
  timestamp : ℕ
deriving DecidableEq

/-- A webhook response: 200 with a `Success` body, or an error status with
its kind. -/
inductive WebResp where
  | ok (body : Success)
  | err (status : ℕ) (kind : ErrKind)
deriving DecidableEq

/-- Is the response an error (any `HTTPException`)? -/
def WebResp.isErr : WebResp → Bool
  | .ok _ => false
  | .err _ _ => true

/-- An incoming request to the webhook: the `Content-Type` header value
(empty string when absent) and the parsed JSON body (`none` when the body
fails `request.json()`). -/
structure WebReq where
  contentType : String
  body : Option Json

/-- `market_update_webhook` (lines 56-104 of `src/main.py`).  `md` is the
snapshot returned by `get_market_data()`, `tUp` the timestamp written to the
store, `tResp` the timestamp put in the response.  Helper results of
`.error ()` model Python exceptions, which the catch-all turns into 500. -/
def market_update_webhook (req : WebReq) (md : MarketData) (tUp tResp : ℕ)
    (db : Store) : WebResp × Store :=
  if strContains req.contentType "application/json" then
    match req.body with
    | none => (.err 400 .malformedJSON, db)
    | some data =>
      if truthy data then
        match memPy "product_id" data with
        | .error _ => (.err 500 .internalError, db)
        | .ok false => (.err 400 .missingField, db)
        | .ok true =>
          match getPy "product_id" data with
          | .error _ => (.err 500 .internalError, db)
          | .ok pidOpt =>
            -- `product_id = data.get("product_id")`; `pid in pricing_db`
            -- raises TypeError on unhashable pids (arrays, objects), and a
            -- non-string hashable pid is never equal to a string key.
            match pidOpt.getD .null with
            | .arr _ => (.err 500 .internalError, db)
            | .obj _ => (.err 500 .internalError, db)
            | .str k =>
              match db k with
              | none => (.err 404 .productNotFound, db)
              | some r =>
                let np := adjust_price r.price md
                (.ok ⟨k, r.price, np, md, tResp⟩, setPrice db k np tUp)
            | _ => (.err 404 .productNotFound, db)
      else (.err 400 .missingField, db)
  else (.err 400 .invalidContentType, db)

/-- A response of `GET /pricing/{product_id}`. -/
inductive ReadResp where
  | ok (r : PriceRec)
  | err (status : ℕ) (kind : ErrKind)
deriving DecidableEq

/-- `get_pricing` (lines 107-111 of `src/main.py`). -/
def get_pricing (product_id : String) (db : Store) : ReadResp × Store :=
  match db product_id with
  | none => (.err 404 .productNotFound, db)
  | some r => (.ok r, db)

/-- `get_all_pricing` (lines 114-116): returns the whole store. -/
def get_all_pricing (db : Store) : Store × Store := (db, db)

/-- `health_check` (lines 119-121): fixed status plus a timestamp. -/
def health_check (t : ℕ) (db : Store) : (String × ℕ) × Store :=
  (("healthy", t), db)

/-- One request to any exposed endpoint of the service. -/
inductive ApiReq where
  | webhook (req : WebReq) (md : MarketData) (tUp tResp : ℕ)
  | pricingOne (product_id : String)
  | pricingAll
  | health (t : ℕ)

/-- The store left behind by one request. -/
def stepStore : ApiReq → Store → Store
  | .webhook r md tU tR, db => (market_update_webhook r md tU tR db).2
  | .pricingOne pid, db => (get_pricing pid db).2
  | .pricingAll, db => (get_all_pricing db).2
  | .health t, db => (health_check t db).2

/-- The store after a sequence of requests. -/
def runReqs (reqs : List ApiReq) (db : Store) : Store :=
  reqs.foldl (fun s a => stepStore a s) db

/-- The demand-and-trend part of `adjust_price` (before the clamp), split out
so theorems can name the pre-clamp value. -/
def trendAdj (price : ℚ) (md : MarketData) : ℚ :=
  if md.trend == "rising" then price * md.demand * (11 / 10)
  else if md.trend == "falling" then price * md.demand * (9 / 10)
  else price * md.demand
/-- Strictly inside `(n - 1/2, n + 1/2)` round-half-to-even gives `n`
(there is no tie there). -/
theorem rhe_eq_of_near (q : ℚ) (n : ℤ) (h1 : (n : ℚ) - 1 / 2 < q)
    (h2 : q < (n : ℚ) + 1 / 2) : rhe q = n := by
  have hfl : ¬ (q - (⌊q⌋ : ℚ) = 1 / 2) := by
    intro h
    have hq : q = (⌊q⌋ : ℚ) + 1 / 2 := by linarith
    have hlt : (⌊q⌋ : ℚ) < (n : ℚ) := by linarith
    have hgt : ((n : ℚ) - 1 : ℚ) < (⌊q⌋ : ℚ) := by linarith
    have hlt' : ⌊q⌋ < n := by exact_mod_cast hlt
    have hgt' : (n - 1 : ℤ) < ⌊q⌋ := by exact_mod_cast hgt
    omega
  rw [rhe, if_neg hfl, round_eq]
  apply Int.floor_eq_iff.mpr
  constructor
  · linarith
  · linarith

/-- Evaluation rule for `round2` away from ties. -/
theorem round2_eq (q : ℚ) (n : ℤ) (h1 : (n : ℚ) - 1 / 2 < q * 100)
    (h2 : q * 100 < (n : ℚ) + 1 / 2) : round2 q = (n : ℚ) / 100 := by
  rw [round2, rhe_eq_of_near (q * 100) n h1 h2]

/-- Unfolding `adjust_price` at trend `"stable"`. -/
theorem adjust_price_stable (price d c : ℚ) :
    adjust_price price ⟨d, c, "stable"⟩ =
      round2 (max (c * (9 / 10)) (min (price * d) (c * (11 / 10)))) := by
  simp only [adjust_price]
  rw [show (("stable" : String) == "rising") = false from rfl,
    show (("stable" : String) == "falling") = false from rfl]
  simp

/-- Unfolding `adjust_price` at trend `"rising"`. -/
theorem adjust_price_rising (price d c : ℚ) :
    adjust_price price ⟨d, c, "rising"⟩ =
      round2 (max (c * (9 / 10)) (min (price * d * (11 / 10)) (c * (11 / 10)))) := by
  simp only [adjust_price]
  rw [show (("rising" : String) == "rising") = true from rfl]
  simp

/-- Unfolding `adjust_price` at trend `"falling"`. -/
theorem adjust_price_falling (price d c : ℚ) :
    adjust_price price ⟨d, c, "falling"⟩ =
      round2 (max (c * (9 / 10)) (min (price * d * (9 / 10)) (c * (11 / 10)))) := by
  simp only [adjust_price]
  rw [show (("falling" : String) == "rising") = false from rfl,
    show (("falling" : String) == "falling") = true from rfl]
  simp

/-- Round-half-to-even moves a value by at most `1/2`. -/
theorem rhe_abs_le (q : ℚ) : |(rhe q : ℚ) - q| ≤ 1 / 2 := by
  rw [rhe]
  split
  · rename_i htie
    split
    · rw [abs_le]
      constructor <;> linarith
    · rw [abs_le]
      push_cast
      constructor <;> linarith
  · rw [abs_sub_comm]
    exact abs_sub_round q

/-- Round-half-to-even of a non-negative value is non-negative. -/
theorem rhe_nonneg (q : ℚ) (h : 0 ≤ q) : 0 ≤ rhe q := by
  have hfl : 0 ≤ ⌊q⌋ := Int.le_floor.mpr (by exact_mod_cast h)
  rw [rhe]
  split
  · split
    · exact hfl
    · omega
  · rw [round_eq]
    have hmono : ⌊q⌋ ≤ ⌊q + 1 / 2⌋ := Int.floor_le_floor (by linarith)
    omega

/-- `round2` moves a value by at most `1/200` (half a cent). -/
theorem round2_abs_le (q : ℚ) : |round2 q - q| ≤ 1 / 200 := by
  have h := rhe_abs_le (q * 100)
  rw [abs_le] at h ⊢
  rw [round2]
  constructor
  · linarith [h.1]
  · linarith [h.2]

/-- `round2` of a non-negative value is non-negative. -/
theorem round2_nonneg (q : ℚ) (h : 0 ≤ q) : 0 ≤ round2 q := by
  rw [round2]
  have hc : (0 : ℚ) ≤ (rhe (q * 100) : ℚ) := by
    exact_mod_cast rhe_nonneg (q * 100) (by linarith)
  exact div_nonneg hc (by norm_num)

/-- `adjust_price` is `round2` of the clamped pre-clamp value. -/
theorem adjust_price_eq (price : ℚ) (md : MarketData) :
    adjust_price price md =
      round2 (max (md.competitor_price * (9 / 10))
        (min (trendAdj price md) (md.competitor_price * (11 / 10)))) := rfl

/-- `trendAdj` at trend `"stable"`. -/
theorem trendAdj_stable (price d c : ℚ) :
    trendAdj price ⟨d, c, "stable"⟩ = price * d := by
  simp only [trendAdj]
  rw [show (("stable" : String) == "rising") = false from rfl,
    show (("stable" : String) == "falling") = false from rfl]
  simp

/-- `trendAdj` at trend `"rising"`. -/
theorem trendAdj_rising (price d c : ℚ) :
    trendAdj price ⟨d, c, "rising"⟩ = price * d * (11 / 10) := by
  simp only [trendAdj]
  rw [show (("rising" : String) == "rising") = true from rfl]
  simp

/-- `trendAdj` at trend `"falling"`. -/
theorem trendAdj_falling (price d c : ℚ) :
    trendAdj price ⟨d, c, "falling"⟩ = price * d * (9 / 10) := by
  simp only [trendAdj]
  rw [show (("falling" : String) == "rising") = false from rfl,
    show (("falling" : String) == "falling") = true from rfl]
  simp

/-- The webhook either leaves the store untouched, or succeeds on a present
key and rewrites exactly that record via `setPrice`. -/
theorem market_update_store_spec (req : WebReq) (md : MarketData)
    (tUp tResp : ℕ) (db : Store) :
    (market_update_webhook req md tUp tResp db).2 = db ∨
    ∃ k r, db k = some r ∧
      (market_update_webhook req md tUp tResp db).2 =
        setPrice db k (adjust_price r.price md) tUp ∧
      ∃ b, (market_update_webhook req md tUp tResp db).1 = WebResp.ok b := by
  rw [market_update_webhook]
  repeat' split
  all_goals try exact Or.inl rfl
  refine Or.inr ⟨_, _, ?_, rfl, _, rfl⟩
  assumption

/-- The success path of the webhook: valid content type, a dict body whose
`product_id` is a string key present in the store. -/
theorem market_update_success (ct : String) (kvs : List (String × Json))
    (k : String) (md : MarketData) (tUp tResp : ℕ) (db : Store) (r : PriceRec)
    (hct : strContains ct "application/json" = true)
    (hpid : lookupKV "product_id" kvs = some (.str k))
    (hdb : db k = some r) :
    market_update_webhook ⟨ct, some (.obj kvs)⟩ md tUp tResp db =
      (.ok ⟨k, r.price, adjust_price r.price md, md, tResp⟩,
        setPrice db k (adjust_price r.price md) tUp) := by
  have hne : kvs ≠ [] := by
    intro h
    rw [h] at hpid
    simp [lookupKV] at hpid
  simp [market_update_webhook, hct, truthy, hne, memPy, getPy, hpid, hdb]

/-- `setPrice` on a present key does not change the key set. -/
theorem setPrice_keys (db : Store) (k : String) (p : ℚ) (t : ℕ)
    (h : (db k).isSome) : storeKeys (setPrice db k p t) = storeKeys db := by
  ext j
  simp only [storeKeys, setPrice, Set.mem_setOf_eq]
  by_cases hj : j = k
  · subst hj
    simp [h]
  · simp [hj]

/-- One request never adds or removes a key of the store. -/
theorem stepStore_keys (a : ApiReq) (db : Store) :
    storeKeys (stepStore a db) = storeKeys db := by
  cases a with
  | webhook r md tU tR =>
    rcases market_update_store_spec r md tU tR db with h | ⟨k, rec, hk, h2, _⟩
    · simp only [stepStore, h]
    · simp only [stepStore, h2]
      exact setPrice_keys db k _ tU (by rw [hk]; rfl)
  | pricingOne pid =>
    cases h : db pid <;> simp [stepStore, get_pricing, h]
  | pricingAll => rfl
  | health t => rfl

/-- A whole request sequence never adds or removes a key of the store. -/
theorem runReqs_keys (reqs : List ApiReq) (db : Store) :
    storeKeys (runReqs reqs db) = storeKeys db := by
  induction reqs generalizing db with
  | nil => rfl
  | cons a as ih =>
    show storeKeys (runReqs as (stepStore a db)) = storeKeys db
    rw [ih (stepStore a db), stepStore_keys]

/-- C1: `adjust_price` is deterministic (it is a function of its two
arguments) and computes exactly the spec's algorithm: demand scaling, then
the trend multiplier (×1.1 rising, ×0.9 falling, unchanged otherwise), then
the clamp to `[competitor_price*0.9, competitor_price*1.1]` with the lower
bound taking precedence, then rounding to 2 decimal places.  The
implementation equals the spec-modelled reference `adjustSpec` on every
input. -/
theorem claim_C1_adjust_refines_spec (current_price : ℚ) (snapshot : MarketData) :
    adjust_price current_price snapshot = adjustSpec current_price snapshot := rfl

/-- C2 (counterexample): with `current_price = 100`, `demand = 1.9`,
`competitor_price = 100.005`, trend `"stable"` — all inside the claimed
domain — the clamped value is `110.0055`, which rounds to `110.01`, strictly
above `competitor_price * 1.1 = 110.0055`.  So the returned value does not
lie within the window inclusively. -/
theorem claim_C2_counterexample :
    1 / 2 ≤ (19 / 10 : ℚ) ∧ (19 / 10 : ℚ) < 2 ∧
    (80 : ℚ) ≤ 20001 / 200 ∧ (20001 / 200 : ℚ) < 120 ∧ (0 : ℚ) < 100 ∧
    (20001 / 200 : ℚ) * (11 / 10) <
      adjust_price 100 ⟨19 / 10, 20001 / 200, "stable"⟩ := by
  refine ⟨by norm_num, by norm_num, by norm_num, by norm_num, by norm_num, ?_⟩
  rw [adjust_price_stable]
  have hclamp : max ((20001 : ℚ) / 200 * (9 / 10))
      (min (100 * (19 / 10)) (20001 / 200 * (11 / 10))) = 220011 / 2000 := by
    rw [min_def, max_def]
    norm_num
  rw [hclamp, round2_eq (220011 / 2000) 11001 (by norm_num) (by norm_num)]
  norm_num

/-- C2 (amended): for every `current_price > 0` and every snapshot in the
generator's ranges, the value returned by `adjust_price` lies within
`[competitor_price*0.9 - 0.005, competitor_price*1.1 + 0.005]`: the value
before rounding is clamped into the window, and the final 2-decimal rounding
can move it by at most half a cent past either end. -/
theorem claim_C2_amended (price : ℚ) (md : MarketData)
    (_hp : 0 < price) (_hd1 : 1 / 2 ≤ md.demand) (_hd2 : md.demand < 2)
    (hc1 : 80 ≤ md.competitor_price) (_hc2 : md.competitor_price < 120) :
    md.competitor_price * (9 / 10) - 1 / 200 ≤ adjust_price price md ∧
      adjust_price price md ≤ md.competitor_price * (11 / 10) + 1 / 200 := by
  rw [adjust_price_eq]
  set x := max (md.competitor_price * (9 / 10))
    (min (trendAdj price md) (md.competitor_price * (11 / 10))) with hx
  have hlo : md.competitor_price * (9 / 10) ≤ x := le_max_left _ _
  have hhi : x ≤ md.competitor_price * (11 / 10) :=
    max_le (by linarith) (min_le_right _ _)
  have hr := round2_abs_le x
  rw [abs_le] at hr
  constructor
  · linarith [hr.1]
  · linarith [hr.2]

/-- C2 (witness for the amended theorem) at `price = 100`,
snapshot `⟨1, 100, "stable"⟩`. -/
theorem claim_C2_witness :
    (100 : ℚ) * (9 / 10) - 1 / 200 ≤ adjust_price 100 ⟨1, 100, "stable"⟩ ∧
      adjust_price 100 ⟨1, 100, "stable"⟩ ≤ (100 : ℚ) * (11 / 10) + 1 / 200 :=
  claim_C2_amended 100 ⟨1, 100, "stable"⟩ (by norm_num) (by norm_num)
    (by norm_num) (by norm_num) (by norm_num)

/-- C6: with demand 1.0 and competitor price 1000, whenever neither the
rising call's pre-clamp value nor the falling call's pre-clamp value is
altered by the clamp (both lie inside `[900, 1100]`), the rising result is
strictly greater than the falling result. -/
theorem claim_C6_rising_gt_falling (p : ℚ)
    (hr1 : 1000 * (9 / 10) ≤ trendAdj p ⟨1, 1000, "rising"⟩)
    (hr2 : trendAdj p ⟨1, 1000, "rising"⟩ ≤ 1000 * (11 / 10))
    (hf1 : 1000 * (9 / 10) ≤ trendAdj p ⟨1, 1000, "falling"⟩)
    (hf2 : trendAdj p ⟨1, 1000, "falling"⟩ ≤ 1000 * (11 / 10)) :
    adjust_price p ⟨1, 1000, "rising"⟩ > adjust_price p ⟨1, 1000, "falling"⟩ := by
  rw [trendAdj_rising] at hr1 hr2
  rw [trendAdj_falling] at hf1 hf2
  have hp : p = 1000 := le_antisymm (by linarith) (by linarith)
  subst hp
  rw [adjust_price_rising, adjust_price_falling]
  have h1 : max ((1000 : ℚ) * (9 / 10))
      (min (1000 * 1 * (11 / 10)) (1000 * (11 / 10))) = 1100 := by
    rw [min_def, max_def]
    norm_num
  have h2 : max ((1000 : ℚ) * (9 / 10))
      (min (1000 * 1 * (9 / 10)) (1000 * (11 / 10))) = 900 := by
    rw [min_def, max_def]
    norm_num
  rw [h1, h2, round2_eq 1100 110000 (by norm_num) (by norm_num),
    round2_eq 900 90000 (by norm_num) (by norm_num)]
  norm_num

/-- C6 (witness) at `p = 1000`, where neither call clamps. -/
theorem claim_C6_witness :
    adjust_price 1000 ⟨1, 1000, "rising"⟩ > adjust_price 1000 ⟨1, 1000, "falling"⟩ :=
  claim_C6_rising_gt_falling 1000
    (by rw [trendAdj_rising]; norm_num) (by rw [trendAdj_rising]; norm_num)
    (by rw [trendAdj_falling]; norm_num) (by rw [trendAdj_falling]; norm_num)

/-- C7: for every current price and every snapshot with a strictly positive
competitor price, `adjust_price` returns a non-negative number. -/
theorem claim_C7_nonneg (price : ℚ) (md : MarketData)
    (hc : 0 < md.competitor_price) : 0 ≤ adjust_price price md := by
  rw [adjust_price_eq]
  apply round2_nonneg
  calc (0 : ℚ) ≤ md.competitor_price * (9 / 10) := by linarith
    _ ≤ _ := le_max_left _ _

/-- C7 (witness) at `price = 100`, snapshot `⟨1, 100, "stable"⟩`. -/
theorem claim_C7_witness : 0 ≤ adjust_price 100 ⟨1, 100, "stable"⟩ :=
  claim_C7_nonneg 100 ⟨1, 100, "stable"⟩ (by norm_num)

/-- C3: the webhook applies its checks in order, each failure
short-circuiting with its distinct status and leaving the store unchanged:
(1) content type without "application/json" → 400 InvalidContentType;
(2) unparsable body → 400 MalformedJSON; (3) falsy body, or membership test
returning false → 400 MissingField; (4) string product id not in the store →
404 ProductNotFound; an exception in the membership test (truthy
number/boolean body) → 500 InternalError; and every error response leaves
the store exactly as it was. -/
theorem claim_C3_validation_chain (req : WebReq) (md : MarketData)
    (tUp tResp : ℕ) (db : Store) :
    (strContains req.contentType "application/json" = false →
      market_update_webhook req md tUp tResp db =
        (.err 400 .invalidContentType, db)) ∧
    (strContains req.contentType "application/json" = true → req.body = none →
      market_update_webhook req md tUp tResp db =
        (.err 400 .malformedJSON, db)) ∧
    (∀ data, strContains req.contentType "application/json" = true →
      req.body = some data →
      (truthy data = false ∨ memPy "product_id" data = .ok false) →
      market_update_webhook req md tUp tResp db =
        (.err 400 .missingField, db)) ∧
    (∀ data k, strContains req.contentType "application/json" = true →
      req.body = some data → truthy data = true →
      memPy "product_id" data = .ok true →
      getPy "product_id" data = .ok (some (.str k)) → db k = none →
      market_update_webhook req md tUp tResp db =
        (.err 404 .productNotFound, db)) ∧
    (∀ data, strContains req.contentType "application/json" = true →
      req.body = some data → truthy data = true →
      memPy "product_id" data = .error () →
      market_update_webhook req md tUp tResp db =
        (.err 500 .internalError, db)) ∧
    ((market_update_webhook req md tUp tResp db).1.isErr = true →
      (market_update_webhook req md tUp tResp db).2 = db) := by
  refine ⟨?_, ?_, ?_, ?_, ?_, ?_⟩
  · intro h
    simp [market_update_webhook, h]
  · intro h hb
    simp [market_update_webhook, h, hb]
  · intro data h hb hmf
    rcases hmf with hf | hf
    · simp [market_update_webhook, h, hb, hf]
    · by_cases ht : truthy data <;> simp [market_update_webhook, h, hb, ht, hf]
  · intro data k h hb ht hm hg hdbk
    simp [market_update_webhook, h, hb, ht, hm, hg, hdbk]
  · intro data h hb ht hm
    simp [market_update_webhook, h, hb, ht, hm]
  · intro herr
    rcases market_update_store_spec req md tUp tResp db with h2 | ⟨k, r, hk, h2, b, hb⟩
    · exact h2
    · rw [hb] at herr
      simp [WebResp.isErr] at herr

/-- C3 (witness): a request with content type "text/plain" is rejected with
400 InvalidContentType and the store is returned unchanged. -/
theorem claim_C3_witness :
    market_update_webhook ⟨"text/plain", none⟩ ⟨1, 100, "stable"⟩ 0 0
        (pricing_db 0) = (.err 400 .invalidContentType, pricing_db 0) :=
  (claim_C3_validation_chain ⟨"text/plain", none⟩ ⟨1, 100, "stable"⟩ 0 0
    (pricing_db 0)).1 rfl

/-- C4: when all four checks pass (JSON content type, parsed dict body whose
`product_id` is a string naming a stored product), the handler stores
`adjust_price(old price, snapshot)` with the update timestamp, and the 200
body carries the product id, the old stored price, the new stored price, the
full snapshot and the response timestamp. -/
theorem claim_C4_success (ct : String) (kvs : List (String × Json)) (k : String)
    (md : MarketData) (tUp tResp : ℕ) (db : Store) (r : PriceRec)
    (hct : strContains ct "application/json" = true)
    (hpid : lookupKV "product_id" kvs = some (.str k))
    (hdb : db k = some r) :
    market_update_webhook ⟨ct, some (.obj kvs)⟩ md tUp tResp db =
      (.ok ⟨k, r.price, adjust_price r.price md, md, tResp⟩,
        setPrice db k (adjust_price r.price md) tUp) ∧
    setPrice db k (adjust_price r.price md) tUp k =
      some ⟨adjust_price r.price md, tUp⟩ := by
  refine ⟨market_update_success ct kvs k md tUp tResp db r hct hpid hdb, ?_⟩
  simp [setPrice]

/-- C4 (witness): updating `product1` from the startup store. -/
theorem claim_C4_witness :
    market_update_webhook
        ⟨"application/json", some (.obj [("product_id", .str "product1")])⟩
        ⟨1, 100, "stable"⟩ 1 2 (pricing_db 0) =
      (.ok ⟨"product1", 100, adjust_price 100 ⟨1, 100, "stable"⟩,
          ⟨1, 100, "stable"⟩, 2⟩,
        setPrice (pricing_db 0) "product1"
          (adjust_price 100 ⟨1, 100, "stable"⟩) 1) ∧
    setPrice (pricing_db 0) "product1" (adjust_price 100 ⟨1, 100, "stable"⟩) 1
        "product1" = some ⟨adjust_price 100 ⟨1, 100, "stable"⟩, 1⟩ :=
  claim_C4_success "application/json" [("product_id", .str "product1")]
    "product1" ⟨1, 100, "stable"⟩ 1 2 (pricing_db 0) ⟨100, 0⟩ rfl rfl rfl

/-- C5 (counterexample): the body `5` parses as JSON, is truthy, and is not
an object, so it has no `product_id` — the claim demands 400 MissingField —
yet the handler returns 500 InternalError, because `"product_id" in 5`
raises TypeError, which the catch-all converts to 500. -/
theorem claim_C5_counterexample :
    market_update_webhook ⟨"application/json", some (.num 5)⟩
        ⟨1, 100, "stable"⟩ 0 0 (pricing_db 0) =
      (.err 500 .internalError, pricing_db 0) ∧
    WebResp.err 500 ErrKind.internalError ≠ WebResp.err 400 ErrKind.missingField :=
  ⟨rfl, by decide⟩

/-- C5 (amended): for requests with JSON content type and a parsed body, the
handler returns 400 MissingField when the body is falsy or when the
membership test for "product_id" runs and returns false (objects by key,
arrays by string element, strings by substring); a truthy number or `true`
body makes the membership test raise, so it yields 500 InternalError
instead. -/
theorem claim_C5_amended (ct : String) (data : Json) (md : MarketData)
    (tUp tResp : ℕ) (db : Store)
    (hct : strContains ct "application/json" = true) :
    ((truthy data = false ∨ memPy "product_id" data = .ok false) →
      market_update_webhook ⟨ct, some data⟩ md tUp tResp db =
        (.err 400 .missingField, db)) ∧
    (truthy data = true → memPy "product_id" data = .error () →
      market_update_webhook ⟨ct, some data⟩ md tUp tResp db =
        (.err 500 .internalError, db)) := by
  constructor
  · intro hmf
    rcases hmf with hf | hf
    · simp [market_update_webhook, hct, hf]
    · by_cases ht : truthy data <;> simp [market_update_webhook, hct, ht, hf]
  · intro ht hm
    simp [market_update_webhook, hct, ht, hm]

/-- C5 (witness for the amended theorem): the empty dict body gets 400
MissingField. -/
theorem claim_C5_witness :
    market_update_webhook ⟨"application/json", some (.obj [])⟩
        ⟨1, 100, "stable"⟩ 0 0 (pricing_db 0) =
      (.err 400 .missingField, pricing_db 0) :=
  (claim_C5_amended "application/json" (.obj []) ⟨1, 100, "stable"⟩ 0 0
    (pricing_db 0) rfl).1 (Or.inl rfl)

/-- C8: at startup the store holds exactly the keys "product1" (price 100)
and "product2" (price 50); a single request through any exposed endpoint
preserves the key set, and hence so does every request sequence.  (Each key
maps to exactly one record by construction of the store as a map.) -/
theorem claim_C8_store_invariant (t0 : ℕ) :
    storeKeys (pricing_db t0) = {"product1", "product2"} ∧
    pricing_db t0 "product1" = some ⟨100, t0⟩ ∧
    pricing_db t0 "product2" = some ⟨50, t0⟩ ∧
    (∀ a db, storeKeys (stepStore a db) = storeKeys db) ∧
    (∀ reqs, storeKeys (runReqs reqs (pricing_db t0)) =
      {"product1", "product2"}) := by
  have hkeys : storeKeys (pricing_db t0) = {"product1", "product2"} := by
    ext k
    simp only [storeKeys, pricing_db, Set.mem_setOf_eq, Set.mem_insert_iff,
      Set.mem_singleton_iff]
    by_cases h1 : k = "product1"
    · simp [h1]
    · by_cases h2 : k = "product2" <;> simp [h1, h2]
  refine ⟨hkeys, rfl, rfl, stepStore_keys, ?_⟩
  intro reqs
  rw [runReqs_keys, hkeys]

/-- C9: `GET /pricing/{product_id}` is a pure read: it leaves the store
unchanged, a second call with no intervening update returns the identical
value, and it answers the record when the key exists and 404 ProductNotFound
otherwise. -/
theorem claim_C9_get_pricing_pure (product_id : String) (db : Store) :
    (get_pricing product_id db).2 = db ∧
    (get_pricing product_id ((get_pricing product_id db).2)).1 =
      (get_pricing product_id db).1 ∧
    (∀ r, db product_id = some r → (get_pricing product_id db).1 = .ok r) ∧
    (db product_id = none →
      (get_pricing product_id db).1 = .err 404 .productNotFound) := by
  cases h : db product_id <;> simp [get_pricing, h]

/-- C9 (witness): reading `product1` from the startup store. -/
theorem claim_C9_witness :
    (get_pricing "product1" (pricing_db 0)).1 = ReadResp.ok ⟨100, 0⟩ :=
  (claim_C9_get_pricing_pure "product1" (pricing_db 0)).2.2.1 ⟨100, 0⟩ rfl

/-- C10: a successful webhook update for product `k` changes no other
record: every other key keeps its price and timestamp. -/
theorem claim_C10_frame (ct : String) (kvs : List (String × Json)) (k : String)
    (md : MarketData) (tUp tResp : ℕ) (db : Store) (r : PriceRec)
    (hct : strContains ct "application/json" = true)
    (hpid : lookupKV "product_id" kvs = some (.str k))
    (hdb : db k = some r) :
    ∀ j, j ≠ k →
      (market_update_webhook ⟨ct, some (.obj kvs)⟩ md tUp tResp db).2 j = db j := by
  intro j hj
  rw [market_update_success ct kvs k md tUp tResp db r hct hpid hdb]
  simp [setPrice, hj]

/-- C10 (witness): updating `product1` leaves `product2` untouched. -/
theorem claim_C10_witness :
    (market_update_webhook
        ⟨"application/json", some (.obj [("product_id", .str "product1")])⟩
        ⟨1, 100, "stable"⟩ 1 2 (pricing_db 0)).2 "product2" =
      pricing_db 0 "product2" :=
  claim_C10_frame "application/json" [("product_id", .str "product1")]
    "product1" ⟨1, 100, "stable"⟩ 1 2 (pricing_db 0) ⟨100, 0⟩ rfl rfl rfl
    "product2" (by decide)
